import Mathlib

/-!
Shallow embedding of the dpxdt client release workflows
(`dpxdt/client/release_worker.py`) and of the queue-worker run loop
(`dpxdt/runworker.py`), with theorems checking the repository's
specification against this embedding.

Modelling conventions:
* JSON values are an inductive `JVal`; numbers are integers, which covers
  every value these workflows inspect.  Python truthiness is `JVal.truthy`.
* A fetch operation (`workers.FetchItem`) is represented by the request
  descriptor it carries (`FetchRequest`) and by its result (`FetchResult`,
  whose `json` is `none` when the response body was missing or invalid JSON).
* Each workflow `run` generator becomes a function from its arguments and
  the responses of the fetches it yields to the trace of yields (`Ev`) it
  performs and its outcome: `Except RWError α` for
  `raise SomeError` / `raise workers.Return(value)`.
* `hashlib.sha1` is external library code; it is abstracted as a digest
  function `hex : List Nat → String` applied to the byte sequence fed via
  `update`.  The incremental-update law (update a; update b ≡ update (a++b))
  is captured by accumulating the fed bytes.
* The local filesystem is a map from path to file bytes (`none` = opening
  the path raises IOError).
-/

/-- JSON values as delivered by the fetch layer (`call.json`). -/
inductive JVal where
  | null
  | bool (b : Bool)
  | num (n : Int)
  | str (s : String)
  | arr (elems : List JVal)
  | obj (fields : List (String × JVal))

/-- Python truthiness of a JSON value: `None`, `False`, `0`, `""`, `[]`
and `{}` are falsy, everything else truthy. -/
def JVal.truthy : JVal → Bool
  | .null => false
  | .bool b => b
  | .num n => !(n == 0)
  | .str s => !(s == "")
  | .arr elems => !elems.isEmpty
  | .obj fields => !fields.isEmpty

/-- A parsed JSON object (a Python dict), as held in `call.json`. -/
structure Jobj where
  fields : List (String × JVal)

/-- `dict.get(k)`: the first binding of the key, absent keys give `None`. -/
def Jobj.get (o : Jobj) (k : String) : Option JVal :=
  (o.fields.find? (fun kv => kv.1 == k)).map (fun kv => kv.2)

/-- `dict.get(k)` with Python `None` represented as `JVal.null`. -/
def Jobj.getv (o : Jobj) (k : String) : JVal :=
  (o.get k).getD .null

/-- Python truthiness of a dict: falsy exactly when empty. -/
def Jobj.truthy (o : Jobj) : Bool :=
  !o.fields.isEmpty

/-- Python `==` between a JSON value and a `str`; values of any other
type compare unequal to a string. -/
def jeqStr : JVal → String → Bool
  | .str t, s => t == s
  | _, _ => false

/-- A value placed in a `FetchItem` post dict: a plain value or an open
file handle streamed by the HTTP executor. -/
inductive PostVal where
  | jval (v : JVal)
  | file (path : String)

/-- The request descriptor carried by a `workers.FetchItem` yield. -/
structure FetchRequest where
  url : String
  post : List (String × PostVal)
  timeout_seconds : Option Nat
  result_path : Option String

/-- The completed fetch as seen by the workflow: its HTTP status code and
parsed JSON body (`none` when the body was missing or not valid JSON). -/
structure FetchResult where
  status_code : Nat
  json : Option Jobj

/-- Python truthiness of `call.json`: `None` and the empty object are falsy. -/
def FetchResult.jsonTruthy (c : FetchResult) : Bool :=
  match c.json with
  | none => false
  | some o => o.truthy

/-- `call.json.get(k)` where a missing body acts as an empty dict; every
use site is guarded by `call.json`'s truthiness exactly as the source is. -/
def FetchResult.jget (c : FetchResult) (k : String) : JVal :=
  match c.json with
  | none => .null
  | some o => o.getv k

/-- The payload of a workflow exception: the JSON `error` value
(`SomeError(call.json.get('error'))`) or the `'Bad response: ...'` message. -/
inductive ErrPayload where
  | val (v : JVal)
  | badResponse

/-- The per-workflow exception classes of release_worker.py. -/
inductive RWError where
  | createRelease (p : ErrPayload)
  | uploadFile (p : ErrPayload)
  | reportRun (p : ErrPayload)
  | reportPdiff (p : ErrPayload)
  | runsDone (p : ErrPayload)
  | downloadArtifact (p : ErrPayload)

/-- An open Python file object: contents plus current position. -/
structure PyFile where
  contents : List Nat
  pos : Nat

/-- `file.read`: with no size argument reads to EOF, with size `n` reads at
most `n` bytes from the current position; returns the data and the file. -/
def PyFile.read : PyFile → Option Nat → List Nat × PyFile
  | f, none => (f.contents.drop f.pos, ⟨f.contents, f.contents.length⟩)
  | f, some n =>
    ((f.contents.drop f.pos).take n,
     ⟨f.contents, min (f.pos + n) f.contents.length⟩)

/-- `StreamingSha1File`: a file that sha1-hashes the data as it is read.
The hashlib state is represented by the byte sequence fed to `update`. -/
structure StreamingSha1File where
  handle : PyFile
  fed : List Nat

/-- `StreamingSha1File.__init__`: open the file, fresh sha1 state. -/
def StreamingSha1File.init (contents : List Nat) : StreamingSha1File :=
  ⟨⟨contents, 0⟩, []⟩

/-- `StreamingSha1File.read`: read from the underlying file, feed the data
to the hash, and return the data. -/
def StreamingSha1File.read (s : StreamingSha1File) (n : Option Nat) :
    List Nat × StreamingSha1File :=
  let r := s.handle.read n
  (r.1, ⟨r.2, s.fed ++ r.1⟩)

/-- `StreamingSha1File.hexdigest`, with hashlib's digest abstracted as the
function `hex` of the bytes fed so far. -/
def StreamingSha1File.hexdigest (hex : List Nat → String)
    (s : StreamingSha1File) : String :=
  hex s.fed

/-- A sequence of `read` calls against a streaming-hash file: the list of
returned chunks and the final file state. -/
def StreamingSha1File.readSeq (s : StreamingSha1File) :
    List (Option Nat) → List (List Nat) × StreamingSha1File
  | [] => ([], s)
  | n :: ns =>
    let r := s.read n
    let rest := r.2.readSeq ns
    (r.1 :: rest.1, rest.2)

/-- The local filesystem: file bytes per path, `none` meaning that opening
the path raises IOError. -/
abbrev FS : Type := String → Option (List Nat)

/-- `os.path.isfile`. -/
def isfile (fs : FS) (p : String) : Bool :=
  (fs p).isSome

/-- A Python optional string (`None` or `str`) as a posted JSON-ish value. -/
def optStr : Option String → JVal
  | none => .null
  | some s => .str s

/-- Python truthiness of an optional string path. -/
def pyTruthyPath : Option String → Bool
  | none => false
  | some s => !(s == "")

/-- A yield performed by a workflow generator: a parallel yield of
`UploadFileWorkflow` sub-tasks on the given paths, or a `FetchItem`.
Per the spec, a parallel yield is a join: the generator resumes, and hence
performs its next yield, only after all members have completed. -/
inductive Ev where
  | par (paths : List String)
  | fetch (req : FetchRequest)

/-- `CreateReleaseWorkflow.run`: the request it posts and, given the
response `call`, its outcome — `CreateReleaseError(error)` on a truthy
`error` field, `CreateReleaseError('Bad response...')` on missing/falsy
JSON or `release_number`, otherwise
`Return (build_id, release_name, release_number)`. -/
def CreateReleaseWorkflow.run (server : String) (build_id release_name : JVal)
    (call : FetchResult) : FetchRequest × Except RWError (JVal × JVal × JVal) :=
  (⟨server ++ "/create_release",
    [("build_id", .jval build_id), ("release_name", .jval release_name)],
    none, none⟩,
   if call.jsonTruthy && (call.jget "error").truthy then
     .error (.createRelease (.val (call.jget "error")))
   else if !call.jsonTruthy || !(call.jget "release_number").truthy then
     .error (.createRelease .badResponse)
   else
     .ok (build_id, release_name, call.jget "release_number"))

/-- `UploadFileWorkflow.run`: opening a missing file raises IOError which
the workflow converts to `Return None` without any fetch; otherwise the
handle is streamed to EOF by the HTTP executor while being hashed, and the
response must echo the locally computed sha1sum. -/
def UploadFileWorkflow.run (hex : List Nat → String) (server : String)
    (fs : FS) (file_path : String) (upload : FetchResult) :
    Option FetchRequest × Except RWError (Option String) :=
  match fs file_path with
  | none => (none, .ok none)
  | some contents =>
    let handle := ((StreamingSha1File.init contents).read none).2
    let req : FetchRequest :=
      ⟨server ++ "/upload", [("file", .file file_path)], some 120, none⟩
    let sha1sum := handle.hexdigest hex
    (some req,
     if upload.jsonTruthy && (upload.jget "error").truthy then
       .error (.uploadFile (.val (upload.jget "error")))
     else if !upload.jsonTruthy || !(jeqStr (upload.jget "sha1sum") sha1sum) then
       .error (.uploadFile .badResponse)
     else
       .ok (some sha1sum))

/-- The `/report_run` request built by `ReportRunWorkflow.run`. -/
def ReportRunWorkflow.call (server : String)
    (build_id release_name release_number run_name : JVal)
    (image log config : JVal) : FetchRequest :=
  ⟨server ++ "/report_run",
   [("build_id", .jval build_id), ("release_name", .jval release_name),
    ("release_number", .jval release_number), ("run_name", .jval run_name),
    ("image", .jval image), ("log", .jval log), ("config", .jval config)],
   none, none⟩

/-- The response check of `ReportRunWorkflow.run` (source lines 182-186). -/
def ReportRunWorkflow.handle (call : FetchResult) : Except RWError Unit :=
  if call.jsonTruthy && (call.jget "error").truthy then
    .error (.reportRun (.val (call.jget "error")))
  else if !call.jsonTruthy || !(call.jget "success").truthy then
    .error (.reportRun .badResponse)
  else
    .ok ()

/-- `ReportRunWorkflow.run`: a 3-way parallel yield of upload sub-workflows
for screenshot, log and config, then — once all three have completed — one
`/report_run` fetch carrying the three results in order.  `sResp`, `lResp`,
`cResp` are the responses to the sub-uploads' fetches; a failing member of
the parallel yield is rethrown into the generator, which does not catch it. -/
def ReportRunWorkflow.run (hex : List Nat → String) (server : String)
    (fs : FS) (build_id release_name release_number run_name : JVal)
    (screenshot_path log_path config_path : String)
    (sResp lResp cResp call : FetchResult) : List Ev × Except RWError Unit :=
  let tr := Ev.par [screenshot_path, log_path, config_path]
  match (UploadFileWorkflow.run hex server fs screenshot_path sResp).2,
        (UploadFileWorkflow.run hex server fs log_path lResp).2,
        (UploadFileWorkflow.run hex server fs config_path cResp).2 with
  | .error e, _, _ => ([tr], .error e)
  | .ok _, .error e, _ => ([tr], .error e)
  | .ok _, .ok _, .error e => ([tr], .error e)
  | .ok screenshot_id, .ok log_id, .ok config_id =>
    ([tr, .fetch (ReportRunWorkflow.call server build_id release_name
        release_number run_name (optStr screenshot_id) (optStr log_id)
        (optStr config_id))],
     ReportRunWorkflow.handle call)

/-- The `/report_pdiff` request built by `ReportPdiffWorkflow.run`. -/
def ReportPdiffWorkflow.call (server : String)
    (build_id release_name release_number run_name : JVal)
    (diff_image diff_log no_diff : JVal) : FetchRequest :=
  ⟨server ++ "/report_pdiff",
   [("build_id", .jval build_id), ("release_name", .jval release_name),
    ("release_number", .jval release_number), ("run_name", .jval run_name),
    ("diff_image", .jval diff_image), ("diff_log", .jval diff_log),
    ("no_diff", .jval no_diff)],
   none, none⟩

/-- The response check of `ReportPdiffWorkflow.run` (source lines 231-235). -/
def ReportPdiffWorkflow.handle (call : FetchResult) : Except RWError Unit :=
  if call.jsonTruthy && (call.jget "error").truthy then
    .error (.reportPdiff (.val (call.jget "error")))
  else if !call.jsonTruthy || !(call.jget "success").truthy then
    .error (.reportPdiff .badResponse)
  else
    .ok ()

/-- The branch condition of `ReportPdiffWorkflow.run`:
`diff_path and log_path and os.path.isfile(diff_path) and
os.path.isfile(log_path)` (short-circuiting, so `isfile` only runs on
truthy strings). -/
def ReportPdiffWorkflow.cond (fs : FS) (diff_path log_path : Option String) :
    Bool :=
  pyTruthyPath diff_path && (pyTruthyPath log_path &&
    (isfile fs (diff_path.getD "") && isfile fs (log_path.getD "")))

/-- `ReportPdiffWorkflow.run`: when both paths are truthy and name existing
files, a 2-way parallel yield of the two uploads and then the report fetch
with their results and `no_diff=None`; otherwise no uploads and the report
fetch with `diff_image=None`, `diff_log=None`, `no_diff='true'`. -/
def ReportPdiffWorkflow.run (hex : List Nat → String) (server : String)
    (fs : FS) (build_id release_name release_number run_name : JVal)
    (diff_path log_path : Option String)
    (dResp lResp call : FetchResult) : List Ev × Except RWError Unit :=
  if ReportPdiffWorkflow.cond fs diff_path log_path then
    let dp := diff_path.getD ""
    let lp := log_path.getD ""
    match (UploadFileWorkflow.run hex server fs dp dResp).2,
          (UploadFileWorkflow.run hex server fs lp lResp).2 with
    | .error e, _ => ([.par [dp, lp]], .error e)
    | .ok _, .error e => ([.par [dp, lp]], .error e)
    | .ok diff_id, .ok log_id =>
      ([.par [dp, lp],
        .fetch (ReportPdiffWorkflow.call server build_id release_name
          release_number run_name (optStr diff_id) (optStr log_id) .null)],
       ReportPdiffWorkflow.handle call)
  else
    ([.fetch (ReportPdiffWorkflow.call server build_id release_name
        release_number run_name .null .null (.str "true"))],
     ReportPdiffWorkflow.handle call)

/-- `RunsDoneWorkflow.run`: one `/runs_done` fetch; `RunsDoneError` on a
truthy `error` field or missing/falsy JSON `success`, otherwise
`Return 'this would be a URL'`. -/
def RunsDoneWorkflow.run (server : String)
    (build_id release_name release_number : JVal)
    (call : FetchResult) : FetchRequest × Except RWError String :=
  (⟨server ++ "/runs_done",
    [("build_id", .jval build_id), ("release_name", .jval release_name),
     ("release_number", .jval release_number)],
    none, none⟩,
   if call.jsonTruthy && (call.jget "error").truthy then
     .error (.runsDone (.val (call.jget "error")))
   else if !call.jsonTruthy || !(call.jget "success").truthy then
     .error (.runsDone .badResponse)
   else
     .ok "this would be a URL")

/-- `DownloadArtifactWorkflow.run`: one GET fetch with its response body
streamed to `result_path`; `DownloadArtifactError` exactly on a non-200
status (the source formats `('Bad response: %r', call)`). -/
def DownloadArtifactWorkflow.run (server : String)
    (sha1sum result_path : String)
    (call : FetchResult) : FetchRequest × Except RWError Unit :=
  (⟨server ++ "/download?sha1sum=" ++ sha1sum, [], none, some result_path⟩,
   if call.status_code == 200 then
     .ok ()
   else
     .error (.downloadArtifact .badResponse))

/-- A finished top-level Task as emitted on the Coordinator's output
channel, reduced to what the run loop inspects: whether it Failed. -/
structure OutputItem where
  failed : Bool

/-- What the worker reports to the remote queue for one consumed item. -/
inductive LeaseOutcome where
  | ack
  | failLease

/-- Modelled from the spec: `WorkItem.check_result` lives in
`dpxdt/client/workers.py`, which is not among the sources; per the spec the
worker "translates a failed top-level Task into a failed-lease report to
the remote queue (enabling retry elsewhere) and logs the failure; it does
not crash the worker process on a single task's failure — only the current
lease is affected". -/
def check_result (it : OutputItem) : LeaseOutcome :=
  if it.failed then .failLease else .ack

/-- The consumption loop of `run_workers` (runworker.py lines 51-53):
take each item from the Coordinator's output channel and `check_result`
it, forever; modelled on an arbitrary finite prefix of the channel. -/
def run_workers (items : List OutputItem) : List LeaseOutcome :=
  items.map check_result

/-- A key whose value is truthy is present, so the dict is nonempty and
itself truthy. -/
theorem Jobj.truthy_of_getv (o : Jobj) (k : String)
    (h : (o.getv k).truthy = true) : o.truthy = true := by
  rcases o with ⟨fields⟩
  cases fields with
  | nil => simp [Jobj.getv, Jobj.get, JVal.truthy] at h
  | cons a l => simp [Jobj.truthy, List.isEmpty]

/-- A key that is present at all makes the dict nonempty, hence truthy. -/
theorem Jobj.truthy_of_get (o : Jobj) (k : String) (v : JVal)
    (h : o.get k = some v) : o.truthy = true := by
  rcases o with ⟨fields⟩
  cases fields with
  | nil => simp [Jobj.get] at h
  | cons a l => simp [Jobj.truthy, List.isEmpty]

/-- A JSON value that compares `==` to a Python string was read out of a
present key of a real object, so the response body was truthy JSON. -/
theorem jsonTruthy_of_jeqStr (c : FetchResult) (k s : String)
    (h : jeqStr (c.jget k) s = true) : c.jsonTruthy = true := by
  unfold FetchResult.jget at h
  unfold FetchResult.jsonTruthy
  cases hj : c.json with
  | none => rw [hj] at h; simp [jeqStr] at h
  | some o =>
    rw [hj] at h
    cases hg : o.get k with
    | none => simp [Jobj.getv, hg, jeqStr] at h
    | some v => exact Jobj.truthy_of_get o k v hg

/-- The bytes fed to the hash after a sequence of reads are the bytes fed
before it followed by the concatenation of the returned chunks. -/
theorem StreamingSha1File.fed_readSeq (ns : List (Option Nat)) :
    ∀ s : StreamingSha1File,
      (s.readSeq ns).2.fed = s.fed ++ (s.readSeq ns).1.flatten := by
  induction ns with
  | nil => intro s; simp [StreamingSha1File.readSeq]
  | cons n ns ih =>
    intro s
    simp [StreamingSha1File.readSeq, StreamingSha1File.read, ih,
      List.append_assoc]

/-- Claim C8: after any sequence of read calls on a freshly opened
streaming-hash file, the reported hex digest is the digest of the
concatenation, in order, of exactly the bytes those reads returned. -/
theorem c8_streaming_hash_of_reads (hex : List Nat → String)
    (contents : List Nat) (ns : List (Option Nat)) :
    ((StreamingSha1File.init contents).readSeq ns).2.hexdigest hex
      = hex ((StreamingSha1File.init contents).readSeq ns).1.flatten := by
  unfold StreamingSha1File.hexdigest
  rw [StreamingSha1File.fed_readSeq]
  rfl

/-- Claim C9: the run loop consumes every item of the output channel in
turn; a Failed top-level task produces exactly one failed-lease report for
its own lease, and the loop goes on to process all later items unchanged. -/
theorem c9_failed_task_does_not_stop_loop (pre post : List OutputItem)
    (it : OutputItem) (h : it.failed = true) :
    run_workers (pre ++ it :: post)
      = run_workers pre ++ .failLease :: run_workers post := by
  simp [run_workers, check_result, h]

/-- Witness for C9: a failed task between two successful ones. -/
theorem c9_witness :
    (⟨true⟩ : OutputItem).failed = true
    ∧ run_workers ([⟨false⟩] ++ ⟨true⟩ :: [⟨false⟩])
      = run_workers [⟨false⟩] ++ .failLease :: run_workers [⟨false⟩] :=
  ⟨rfl, c9_failed_task_does_not_stop_loop [⟨false⟩] [⟨false⟩] ⟨true⟩ rfl⟩

/-- Claim C1: for each of the five JSON workflows, a truthy `error` field
in the response raises that workflow's failure carrying the error value,
whatever the other fields; a missing or invalid JSON body raises its
Bad-response failure. -/
theorem c1_error_field_and_bad_response (server : String)
    (build_id release_name release_number : JVal)
    (hex : List Nat → String) (fs : FS) (p : String) (bytes : List Nat)
    (code : Nat) (o : Jobj)
    (herr : (o.getv "error").truthy = true)
    (hfile : fs p = some bytes) :
    ((CreateReleaseWorkflow.run server build_id release_name ⟨code, some o⟩).2
        = .error (.createRelease (.val (o.getv "error")))
      ∧ (UploadFileWorkflow.run hex server fs p ⟨code, some o⟩).2
        = .error (.uploadFile (.val (o.getv "error")))
      ∧ ReportRunWorkflow.handle ⟨code, some o⟩
        = .error (.reportRun (.val (o.getv "error")))
      ∧ ReportPdiffWorkflow.handle ⟨code, some o⟩
        = .error (.reportPdiff (.val (o.getv "error")))
      ∧ (RunsDoneWorkflow.run server build_id release_name release_number
          ⟨code, some o⟩).2
        = .error (.runsDone (.val (o.getv "error"))))
    ∧ ((CreateReleaseWorkflow.run server build_id release_name ⟨code, none⟩).2
        = .error (.createRelease .badResponse)
      ∧ (UploadFileWorkflow.run hex server fs p ⟨code, none⟩).2
        = .error (.uploadFile .badResponse)
      ∧ ReportRunWorkflow.handle ⟨code, none⟩
        = .error (.reportRun .badResponse)
      ∧ ReportPdiffWorkflow.handle ⟨code, none⟩
        = .error (.reportPdiff .badResponse)
      ∧ (RunsDoneWorkflow.run server build_id release_name release_number
          ⟨code, none⟩).2
        = .error (.runsDone .badResponse)) := by
  have htr : o.truthy = true := Jobj.truthy_of_getv o "error" herr
  refine ⟨⟨?_, ?_, ?_, ?_, ?_⟩, ?_, ?_, ?_, ?_, ?_⟩
  · unfold CreateReleaseWorkflow.run
    simp [FetchResult.jsonTruthy, FetchResult.jget, htr, herr]
  · unfold UploadFileWorkflow.run
    rw [hfile]
    simp [FetchResult.jsonTruthy, FetchResult.jget, htr, herr]
  · unfold ReportRunWorkflow.handle
    simp [FetchResult.jsonTruthy, FetchResult.jget, htr, herr]
  · unfold ReportPdiffWorkflow.handle
    simp [FetchResult.jsonTruthy, FetchResult.jget, htr, herr]
  · unfold RunsDoneWorkflow.run
    simp [FetchResult.jsonTruthy, FetchResult.jget, htr, herr]
  · unfold CreateReleaseWorkflow.run
    simp [FetchResult.jsonTruthy, FetchResult.jget]
  · unfold UploadFileWorkflow.run
    rw [hfile]
    simp [FetchResult.jsonTruthy, FetchResult.jget]
  · unfold ReportRunWorkflow.handle
    simp [FetchResult.jsonTruthy, FetchResult.jget]
  · unfold ReportPdiffWorkflow.handle
    simp [FetchResult.jsonTruthy, FetchResult.jget]
  · unfold RunsDoneWorkflow.run
    simp [FetchResult.jsonTruthy, FetchResult.jget]

/-- Witness for C1 at the concrete response
`{"error": "boom", "other": 5}` (and, for the second half, no JSON). -/
theorem c1_witness :
    ((⟨[("error", JVal.str "boom"), ("other", JVal.num 5)]⟩ : Jobj).getv
        "error").truthy = true
    ∧ (fun _ => some [7] : FS) "f" = some [7]
    ∧ (((CreateReleaseWorkflow.run "S" (.num 1) (.str "r")
          ⟨200, some ⟨[("error", .str "boom"), ("other", .num 5)]⟩⟩).2
          = .error (.createRelease (.val (.str "boom")))
        ∧ (UploadFileWorkflow.run (fun _ => "h") "S" (fun _ => some [7]) "f"
            ⟨200, some ⟨[("error", .str "boom"), ("other", .num 5)]⟩⟩).2
          = .error (.uploadFile (.val (.str "boom")))
        ∧ ReportRunWorkflow.handle
            ⟨200, some ⟨[("error", .str "boom"), ("other", .num 5)]⟩⟩
          = .error (.reportRun (.val (.str "boom")))
        ∧ ReportPdiffWorkflow.handle
            ⟨200, some ⟨[("error", .str "boom"), ("other", .num 5)]⟩⟩
          = .error (.reportPdiff (.val (.str "boom")))
        ∧ (RunsDoneWorkflow.run "S" (.num 1) (.str "r") (.num 2)
            ⟨200, some ⟨[("error", .str "boom"), ("other", .num 5)]⟩⟩).2
          = .error (.runsDone (.val (.str "boom"))))
      ∧ ((CreateReleaseWorkflow.run "S" (.num 1) (.str "r") ⟨200, none⟩).2
          = .error (.createRelease .badResponse)
        ∧ (UploadFileWorkflow.run (fun _ => "h") "S" (fun _ => some [7]) "f"
            ⟨200, none⟩).2
          = .error (.uploadFile .badResponse)
        ∧ ReportRunWorkflow.handle ⟨200, none⟩
          = .error (.reportRun .badResponse)
        ∧ ReportPdiffWorkflow.handle ⟨200, none⟩
          = .error (.reportPdiff .badResponse)
        ∧ (RunsDoneWorkflow.run "S" (.num 1) (.str "r") (.num 2)
            ⟨200, none⟩).2
          = .error (.runsDone .badResponse))) :=
  ⟨rfl, rfl,
   c1_error_field_and_bad_response "S" (.num 1) (.str "r") (.num 2)
     (fun _ => "h") (fun _ => some [7]) "f" [7] 200
     ⟨[("error", .str "boom"), ("other", .num 5)]⟩ rfl rfl⟩

/-- Claim C5: create release with `build_id=7`, `release_name="home"`
returns `(7, "home", 3)` when the server responds with
`{"release_number": 3}`, and raises a create-release failure carrying
"duplicate" when the server responds `{"error": "duplicate"}`. -/
theorem c5_create_release_scenario :
    (CreateReleaseWorkflow.run "S" (.num 7) (.str "home")
      ⟨200, some ⟨[("release_number", .num 3)]⟩⟩).2
      = .ok (.num 7, .str "home", .num 3)
    ∧ (CreateReleaseWorkflow.run "S" (.num 7) (.str "home")
      ⟨200, some ⟨[("error", .str "duplicate")]⟩⟩).2
      = .error (.createRelease (.val (.str "duplicate"))) :=
  ⟨rfl, rfl⟩

/-- Claim C10: the create-release workflow tests `release_number` by
truthiness, not presence: a response whose JSON carries a falsy
`release_number` (and no error field) raises the Bad-response failure even
though the field is present. -/
theorem c10_release_number_tested_by_truthiness (server : String)
    (build_id release_name : JVal) (o : Jobj) (v : JVal)
    (hpresent : o.get "release_number" = some v)
    (hfalsy : v.truthy = false)
    (hnoerr : (o.getv "error").truthy = false) :
    (CreateReleaseWorkflow.run server build_id release_name ⟨200, some o⟩).2
      = .error (.createRelease .badResponse) := by
  have hrn : (o.getv "release_number").truthy = false := by
    unfold Jobj.getv
    rw [hpresent]
    exact hfalsy
  unfold CreateReleaseWorkflow.run
  simp [FetchResult.jsonTruthy, FetchResult.jget, hnoerr, hrn]

/-- Witness for C10 at the concrete response `{"release_number": 0}`. -/
theorem c10_witness :
    (⟨[("release_number", JVal.num 0)]⟩ : Jobj).get "release_number"
        = some (.num 0)
    ∧ (JVal.num 0).truthy = false
    ∧ ((⟨[("release_number", JVal.num 0)]⟩ : Jobj).getv "error").truthy = false
    ∧ (CreateReleaseWorkflow.run "S" (.num 1) (.str "r")
        ⟨200, some ⟨[("release_number", .num 0)]⟩⟩).2
      = .error (.createRelease .badResponse) :=
  ⟨rfl, rfl, rfl,
   c10_release_number_tested_by_truthiness "S" (.num 1) (.str "r")
     ⟨[("release_number", JVal.num 0)]⟩ (.num 0) rfl rfl rfl⟩

/-- Claim C4: for a path that cannot be opened (IOError), the upload-file
workflow issues no fetch and terminates successfully with result `None`,
whatever the (never consulted) response would have been. -/
theorem c4_missing_file_returns_none (hex : List Nat → String)
    (server : String) (fs : FS) (p : String) (resp : FetchResult)
    (h : fs p = none) :
    UploadFileWorkflow.run hex server fs p resp = (none, .ok none) := by
  unfold UploadFileWorkflow.run
  rw [h]

/-- Witness for C4 on an empty filesystem. -/
theorem c4_witness :
    (fun _ => none : FS) "missing.png" = none
    ∧ UploadFileWorkflow.run (fun _ => "") "S" (fun _ => none) "missing.png"
        ⟨200, none⟩ = (none, .ok none) :=
  ⟨rfl,
   c4_missing_file_returns_none (fun _ => "") "S" (fun _ => none)
     "missing.png" ⟨200, none⟩ rfl⟩

/-- Claim C7: the download-artifact workflow issues exactly one fetch, with
streaming output directed to the given result path, at the `/download` URL;
it raises the download failure iff the status code is not 200, and
succeeds on status 200. -/
theorem c7_download_artifact_status (server sha1sum result_path : String)
    (call : FetchResult) :
    (DownloadArtifactWorkflow.run server sha1sum result_path call).1.result_path
      = some result_path
    ∧ (DownloadArtifactWorkflow.run server sha1sum result_path call).1.url
      = server ++ "/download?sha1sum=" ++ sha1sum
    ∧ ((DownloadArtifactWorkflow.run server sha1sum result_path call).2
        = .error (.downloadArtifact .badResponse) ↔ call.status_code ≠ 200)
    ∧ (call.status_code = 200 →
        (DownloadArtifactWorkflow.run server sha1sum result_path call).2
          = .ok ()) := by
  refine ⟨rfl, rfl, ?_, ?_⟩
  · unfold DownloadArtifactWorkflow.run
    by_cases h : call.status_code = 200 <;> simp [h]
  · intro h
    unfold DownloadArtifactWorkflow.run
    simp [h]

/-- Witness for C7 at a concrete 404 response. -/
theorem c7_witness :
    (DownloadArtifactWorkflow.run "S" "abc" "out.png" ⟨404, none⟩).1.result_path
      = some "out.png"
    ∧ (DownloadArtifactWorkflow.run "S" "abc" "out.png" ⟨404, none⟩).1.url
      = "S" ++ "/download?sha1sum=" ++ "abc"
    ∧ ((DownloadArtifactWorkflow.run "S" "abc" "out.png" ⟨404, none⟩).2
        = .error (.downloadArtifact .badResponse)
        ↔ (⟨404, none⟩ : FetchResult).status_code ≠ 200)
    ∧ ((⟨404, none⟩ : FetchResult).status_code = 200 →
        (DownloadArtifactWorkflow.run "S" "abc" "out.png" ⟨404, none⟩).2
          = .ok ()) :=
  c7_download_artifact_status "S" "abc" "out.png" ⟨404, none⟩

/-- Counterexample to claim C2 as stated: a response carrying both a
truthy `error` field and a `sha1sum` field equal to the locally computed
hash.  The response does "contain a 'sha1sum' field equal to the hash
computed locally", yet the workflow raises instead of succeeding, so
success is not equivalent to that containment alone. -/
theorem c2_counterexample :
    jeqStr ((⟨[("error", JVal.str "boom"), ("sha1sum", JVal.str "h")]⟩
        : Jobj).getv "sha1sum") ((fun _ => "h" : List Nat → String) [7]) = true
    ∧ (UploadFileWorkflow.run (fun _ => "h") "S" (fun _ => some [7]) "f"
        ⟨200, some ⟨[("error", JVal.str "boom"), ("sha1sum", JVal.str "h")]⟩⟩).2
      = .error (.uploadFile (.val (.str "boom"))) :=
  ⟨rfl, rfl⟩

/-- Claim C2 amended: for an existing readable file, the upload-file
workflow succeeds — returning the locally computed streaming hash — iff
the response JSON carries no truthy `error` field and its `sha1sum` field
equals that hash; in every other case it raises an upload failure. -/
theorem c2_upload_hash_roundtrip (hex : List Nat → String) (server : String)
    (fs : FS) (p : String) (bytes : List Nat) (upload : FetchResult)
    (hfile : fs p = some bytes) :
    ((UploadFileWorkflow.run hex server fs p upload).2
        = .ok (some (hex bytes))
      ↔ ((upload.jget "error").truthy = false
         ∧ jeqStr (upload.jget "sha1sum") (hex bytes) = true))
    ∧ ((UploadFileWorkflow.run hex server fs p upload).2
        = .ok (some (hex bytes))
      ∨ ∃ pay, (UploadFileWorkflow.run hex server fs p upload).2
          = .error (.uploadFile pay)) := by
  unfold UploadFileWorkflow.run
  rw [hfile]
  have hfed : ((StreamingSha1File.init bytes).read none).2.fed = bytes := rfl
  by_cases he : (upload.jget "error").truthy = true
  · have hj : upload.jsonTruthy = true := by
      unfold FetchResult.jget at he
      unfold FetchResult.jsonTruthy
      cases hc : upload.json with
      | none => rw [hc] at he; simp [JVal.truthy] at he
      | some o => rw [hc] at he; exact Jobj.truthy_of_getv o "error" he
    simp [StreamingSha1File.hexdigest, hfed, hj, he]
  · have he' : (upload.jget "error").truthy = false :=
      Bool.not_eq_true _ ▸ eq_false_of_ne_true he
    by_cases hm : jeqStr (upload.jget "sha1sum") (hex bytes) = true
    · have hj : upload.jsonTruthy = true :=
        jsonTruthy_of_jeqStr upload "sha1sum" (hex bytes) hm
      simp [StreamingSha1File.hexdigest, hfed, hj, he', hm]
    · have hm' : jeqStr (upload.jget "sha1sum") (hex bytes) = false :=
        Bool.not_eq_true _ ▸ eq_false_of_ne_true hm
      simp [StreamingSha1File.hexdigest, hfed, he', hm']

/-- Witness for the amended C2 at a matching concrete response. -/
theorem c2_witness :
    (fun _ => some [7] : FS) "f" = some [7]
    ∧ (((UploadFileWorkflow.run (fun _ => "h") "S" (fun _ => some [7]) "f"
          ⟨200, some ⟨[("sha1sum", JVal.str "h")]⟩⟩).2
        = .ok (some ((fun _ => "h" : List Nat → String) [7]))
        ↔ (((⟨200, some ⟨[("sha1sum", JVal.str "h")]⟩⟩ : FetchResult).jget
              "error").truthy = false
           ∧ jeqStr ((⟨200, some ⟨[("sha1sum", JVal.str "h")]⟩⟩
              : FetchResult).jget "sha1sum")
              ((fun _ => "h" : List Nat → String) [7]) = true))
      ∧ ((UploadFileWorkflow.run (fun _ => "h") "S" (fun _ => some [7]) "f"
          ⟨200, some ⟨[("sha1sum", JVal.str "h")]⟩⟩).2
        = .ok (some ((fun _ => "h" : List Nat → String) [7]))
        ∨ ∃ pay, (UploadFileWorkflow.run (fun _ => "h") "S"
            (fun _ => some [7]) "f"
            ⟨200, some ⟨[("sha1sum", JVal.str "h")]⟩⟩).2
          = .error (.uploadFile pay))) :=
  ⟨rfl,
   c2_upload_hash_roundtrip (fun _ => "h") "S" (fun _ => some [7]) "f" [7]
     ⟨200, some ⟨[("sha1sum", JVal.str "h")]⟩⟩ rfl⟩

/-- Claim C3: when `diff_path` and `log_path` are both truthy and both name
existing files, report-pdiff performs one 2-way parallel yield of the two
uploads first and — if they complete — exactly one report fetch carrying
their results with `no_diff` unset; otherwise it performs no uploads and
one report fetch with `no_diff='true'` and null diff fields. -/
theorem c3_report_pdiff_branches (hex : List Nat → String) (server : String)
    (fs : FS) (build_id release_name release_number run_name : JVal)
    (diff_path log_path : Option String) (dResp lResp call : FetchResult) :
    (ReportPdiffWorkflow.cond fs diff_path log_path = true →
      ((ReportPdiffWorkflow.run hex server fs build_id release_name
          release_number run_name diff_path log_path dResp lResp call).1.head?
        = some (.par [diff_path.getD "", log_path.getD ""])
      ∧ ∀ d l,
          (UploadFileWorkflow.run hex server fs (diff_path.getD "") dResp).2
            = .ok d →
          (UploadFileWorkflow.run hex server fs (log_path.getD "") lResp).2
            = .ok l →
          ReportPdiffWorkflow.run hex server fs build_id release_name
              release_number run_name diff_path log_path dResp lResp call
            = ([.par [diff_path.getD "", log_path.getD ""],
                .fetch (ReportPdiffWorkflow.call server build_id release_name
                  release_number run_name (optStr d) (optStr l) .null)],
               ReportPdiffWorkflow.handle call)))
    ∧ (ReportPdiffWorkflow.cond fs diff_path log_path = false →
        ReportPdiffWorkflow.run hex server fs build_id release_name
            release_number run_name diff_path log_path dResp lResp call
          = ([.fetch (ReportPdiffWorkflow.call server build_id release_name
              release_number run_name .null .null (.str "true"))],
             ReportPdiffWorkflow.handle call)) := by
  constructor
  · intro hc
    constructor
    · unfold ReportPdiffWorkflow.run
      rw [hc]
      cases hd : (UploadFileWorkflow.run hex server fs (diff_path.getD "")
          dResp).2 with
      | error e => simp [hd]
      | ok d =>
        cases hl : (UploadFileWorkflow.run hex server fs (log_path.getD "")
            lResp).2 with
        | error e => simp [hd, hl]
        | ok l => simp [hd, hl]
    · intro d l hd hl
      unfold ReportPdiffWorkflow.run
      rw [hc]
      simp [hd, hl]
  · intro hc
    unfold ReportPdiffWorkflow.run
    rw [hc]
    simp

/-- Witness for C3: both branches at concrete inputs — both files present
with successful uploads, then a missing log path. -/
theorem c3_witness :
    ReportPdiffWorkflow.run (fun _ => "h") "S" (fun _ => some [7]) (.num 1)
        (.str "r") (.num 2) (.str "run") (some "d.png") (some "d.log")
        ⟨200, some ⟨[("sha1sum", JVal.str "h")]⟩⟩
        ⟨200, some ⟨[("sha1sum", JVal.str "h")]⟩⟩
        ⟨200, some ⟨[("success", JVal.bool true)]⟩⟩
      = ([.par ["d.png", "d.log"],
          .fetch (ReportPdiffWorkflow.call "S" (.num 1) (.str "r") (.num 2)
            (.str "run") (optStr (some "h")) (optStr (some "h")) .null)],
         ReportPdiffWorkflow.handle
           ⟨200, some ⟨[("success", JVal.bool true)]⟩⟩)
    ∧ ReportPdiffWorkflow.run (fun _ => "h") "S" (fun _ => some [7]) (.num 1)
        (.str "r") (.num 2) (.str "run") (some "d.png") none
        ⟨200, some ⟨[("sha1sum", JVal.str "h")]⟩⟩
        ⟨200, some ⟨[("sha1sum", JVal.str "h")]⟩⟩
        ⟨200, some ⟨[("success", JVal.bool true)]⟩⟩
      = ([.fetch (ReportPdiffWorkflow.call "S" (.num 1) (.str "r") (.num 2)
          (.str "run") .null .null (.str "true"))],
         ReportPdiffWorkflow.handle
           ⟨200, some ⟨[("success", JVal.bool true)]⟩⟩) :=
  ⟨((c3_report_pdiff_branches (fun _ => "h") "S" (fun _ => some [7]) (.num 1)
      (.str "r") (.num 2) (.str "run") (some "d.png") (some "d.log")
      ⟨200, some ⟨[("sha1sum", JVal.str "h")]⟩⟩
      ⟨200, some ⟨[("sha1sum", JVal.str "h")]⟩⟩
      ⟨200, some ⟨[("success", JVal.bool true)]⟩⟩).1 rfl).2
     (some "h") (some "h") rfl rfl,
   (c3_report_pdiff_branches (fun _ => "h") "S" (fun _ => some [7]) (.num 1)
      (.str "r") (.num 2) (.str "run") (some "d.png") none
      ⟨200, some ⟨[("sha1sum", JVal.str "h")]⟩⟩
      ⟨200, some ⟨[("sha1sum", JVal.str "h")]⟩⟩
      ⟨200, some ⟨[("success", JVal.bool true)]⟩⟩).2 rfl⟩

/-- Claim C6: report-run first yields one 3-way parallel collection of
upload sub-tasks (screenshot, log, config, in that order); only if all
three complete does it issue exactly one report fetch whose `image`,
`log` and `config` fields are the three results in positional
correspondence, and if any sub-upload fails no fetch is issued at all. -/
theorem c6_report_run_parallel_then_call (hex : List Nat → String)
    (server : String) (fs : FS)
    (build_id release_name release_number run_name : JVal)
    (screenshot_path log_path config_path : String)
    (sResp lResp cResp call : FetchResult) :
    ((ReportRunWorkflow.run hex server fs build_id release_name
        release_number run_name screenshot_path log_path config_path
        sResp lResp cResp call).1.head?
      = some (.par [screenshot_path, log_path, config_path]))
    ∧ (∀ i1 i2 i3,
        (UploadFileWorkflow.run hex server fs screenshot_path sResp).2
          = .ok i1 →
        (UploadFileWorkflow.run hex server fs log_path lResp).2 = .ok i2 →
        (UploadFileWorkflow.run hex server fs config_path cResp).2 = .ok i3 →
        ReportRunWorkflow.run hex server fs build_id release_name
            release_number run_name screenshot_path log_path config_path
            sResp lResp cResp call
          = ([.par [screenshot_path, log_path, config_path],
              .fetch (ReportRunWorkflow.call server build_id release_name
                release_number run_name (optStr i1) (optStr i2) (optStr i3))],
             ReportRunWorkflow.handle call))
    ∧ (∀ e,
        ((UploadFileWorkflow.run hex server fs screenshot_path sResp).2
            = .error e
          ∨ (UploadFileWorkflow.run hex server fs log_path lResp).2
            = .error e
          ∨ (UploadFileWorkflow.run hex server fs config_path cResp).2
            = .error e) →
        (ReportRunWorkflow.run hex server fs build_id release_name
            release_number run_name screenshot_path log_path config_path
            sResp lResp cResp call).1
          = [.par [screenshot_path, log_path, config_path]]) := by
  refine ⟨?_, ?_, ?_⟩
  · unfold ReportRunWorkflow.run
    cases hs : (UploadFileWorkflow.run hex server fs screenshot_path
        sResp).2 with
    | error e => simp [hs]
    | ok i1 =>
      cases hl : (UploadFileWorkflow.run hex server fs log_path lResp).2 with
      | error e => simp [hs, hl]
      | ok i2 =>
        cases hc : (UploadFileWorkflow.run hex server fs config_path
            cResp).2 with
        | error e => simp [hs, hl, hc]
        | ok i3 => simp [hs, hl, hc]
  · intro i1 i2 i3 h1 h2 h3
    unfold ReportRunWorkflow.run
    simp [h1, h2, h3]
  · intro e h
    unfold ReportRunWorkflow.run
    cases hs : (UploadFileWorkflow.run hex server fs screenshot_path
        sResp).2 with
    | error e' => simp [hs]
    | ok i1 =>
      cases hl : (UploadFileWorkflow.run hex server fs log_path lResp).2 with
      | error e' => simp [hs, hl]
      | ok i2 =>
        cases hc : (UploadFileWorkflow.run hex server fs config_path
            cResp).2 with
        | error e' => simp [hs, hl, hc]
        | ok i3 =>
          rcases h with h | h | h
          · rw [hs] at h; exact absurd h (by simp)
          · rw [hl] at h; exact absurd h (by simp)
          · rw [hc] at h; exact absurd h (by simp)

/-- Witness for C6 with three successful concrete uploads. -/
theorem c6_witness :
    ReportRunWorkflow.run (fun _ => "h") "S" (fun _ => some [7]) (.num 1)
        (.str "r") (.num 2) (.str "run") "s.png" "s.log" "s.cfg"
        ⟨200, some ⟨[("sha1sum", JVal.str "h")]⟩⟩
        ⟨200, some ⟨[("sha1sum", JVal.str "h")]⟩⟩
        ⟨200, some ⟨[("sha1sum", JVal.str "h")]⟩⟩
        ⟨200, some ⟨[("success", JVal.bool true)]⟩⟩
      = ([.par ["s.png", "s.log", "s.cfg"],
          .fetch (ReportRunWorkflow.call "S" (.num 1) (.str "r") (.num 2)
            (.str "run") (optStr (some "h")) (optStr (some "h"))
            (optStr (some "h")))],
         ReportRunWorkflow.handle
           ⟨200, some ⟨[("success", JVal.bool true)]⟩⟩) :=
  (c6_report_run_parallel_then_call (fun _ => "h") "S" (fun _ => some [7])
      (.num 1) (.str "r") (.num 2) (.str "run") "s.png" "s.log" "s.cfg"
      ⟨200, some ⟨[("sha1sum", JVal.str "h")]⟩⟩
      ⟨200, some ⟨[("sha1sum", JVal.str "h")]⟩⟩
      ⟨200, some ⟨[("sha1sum", JVal.str "h")]⟩⟩
      ⟨200, some ⟨[("success", JVal.bool true)]⟩⟩).2.1
    (some "h") (some "h") (some "h") rfl rfl rfl
